import Mathlib

/-!
# InterviewHub front end: list derivation, form and fetch transitions

A shallow embedding of `src/App.jsx`.  JavaScript strings are Lean `String`s,
a value that may be `undefined`/`null` is an `Option`, React state is an
explicit `State` record and every handler is a function on it.  Handlers are
given twice: run to completion (`fetchList`, `addQA`, `confirmLogout`, with
their effects and settled end state) and render by render (`Commit`,
`RenderReachable`), where the render between a state update and the page-reset
effect is a state of its own.  The built-in
`String.prototype.toLowerCase` is full Unicode case mapping; it is not code of
the application, so every definition that calls it takes it as the argument
`lower`, and `asciiLower` is the instance used on ASCII inputs.
-/

namespace App

/-! ## JavaScript string and array primitives -/

/-- Code points removed by `String.prototype.trim`: ECMAScript WhiteSpace and
LineTerminator. -/
def whiteSpaceCodes : List Nat :=
  [0x9, 0xA, 0xB, 0xC, 0xD, 0x20, 0xA0, 0x1680, 0x2000, 0x2001, 0x2002, 0x2003,
   0x2004, 0x2005, 0x2006, 0x2007, 0x2008, 0x2009, 0x200A, 0x2028, 0x2029,
   0x202F, 0x205F, 0x3000, 0xFEFF]

/-- Whether `trim` treats the character as white space. -/
def isWhiteSpace (c : Char) : Bool :=
  whiteSpaceCodes.contains c.toNat

/-- `s.trim()`: white space removed from both ends. -/
def trim (s : String) : String :=
  ⟨((s.data.dropWhile isWhiteSpace).reverse.dropWhile isWhiteSpace).reverse⟩

/-- `toLowerCase` on the ASCII letters; every other character is kept. Agrees
with JavaScript on strings of ASCII characters. -/
def asciiLower (s : String) : String :=
  ⟨s.data.map Char.toLower⟩

/-- Search for `q` in `hay` from position `i` on; `-1` when it does not occur. -/
def indexOfFrom (q : List Char) : List Char → Nat → Int
  | [], i => if q.isPrefixOf [] then (i : Int) else -1
  | c :: cs, i => if q.isPrefixOf (c :: cs) then (i : Int) else indexOfFrom q cs (i + 1)

/-- `hay.indexOf(q)`: index of the first occurrence of `q`, or `-1`. -/
def indexOf (hay q : String) : Int :=
  indexOfFrom q.data hay.data 0

/-- `parts.join(sep)`. -/
def join (sep : String) : List String → String
  | [] => ""
  | [a] => a
  | a :: b :: rest => a ++ sep ++ join sep (b :: rest)

/-- Relative index of `Array.prototype.slice`: a negative argument counts from
the end, and the result is clamped into `[0, len]`. -/
def relIndex (len : Nat) (i : Int) : Nat :=
  if i < 0 then ((len : Int) + i).toNat else min i.toNat len

/-- `xs.slice(start, stop)`. -/
def slice {α : Type} (xs : List α) (start stop : Int) : List α :=
  let k := relIndex xs.length start
  let final := relIndex xs.length stop
  (xs.drop k).take (final - k)

/-! ## Markup stripping: `String(html).replace(/<[^>]+>/g, ' ')` -/

/-- One attempt to match `/<[^>]+>/` at the head of the input: a `<`, the
longest run of characters other than `>` (at least one), then a `>`.  Returns
the input after the match. -/
def matchTag : List Char → Option (List Char)
  | [] => none
  | c :: rest =>
    if c = '<' then
      match rest.dropWhile (fun d => d != '>') with
      | [] => none
      | _ :: after =>
        if (rest.takeWhile (fun d => d != '>')).isEmpty then none else some after
    else none

/-- Global replace of every match of `/<[^>]+>/` by `rep`, scanning from the
left; `fuel` bounds the number of scan steps (each consumes a character). -/
def replaceTags (rep : List Char) : Nat → List Char → List Char
  | _, [] => []
  | 0, s => s
  | fuel + 1, c :: cs =>
    match matchTag (c :: cs) with
    | some after => rep ++ replaceTags rep fuel after
    | none => c :: replaceTags rep fuel cs

/-- The `stripHtml` helper of the list view: an absent or empty field gives
the empty string; otherwise every tag is replaced by one space. -/
def stripHtml (html : Option String) : String :=
  match html with
  | none => ""
  | some s => if s = "" then "" else ⟨replaceTags [' '] s.length s.data⟩

/-! ## Data model -/

/-- A question/answer record as received from the store; a field that is
absent or `null` is `none`. -/
structure Record where
  id : Option Nat := none
  type : Option String := none
  language : Option String := none
  question : Option String := none
  explanation : Option String := none
  usecase : Option String := none
  exampleCode : Option String := none
  output : Option String := none
  summary : Option String := none
  deriving DecidableEq, Repr

/-- The draft being authored in the form. -/
structure Form where
  type : String
  language : String
  question : String
  explanation : String
  usecase : String
  exampleCode : String
  output : String
  summary : String
  deriving DecidableEq, Repr

/-- The category catalog `typeLanguageMap`, in source order. -/
def typeLanguageTable : List (String × List String) :=
  [("Front-End", ["HTML", "CSS", "JQuery", "JavaScript", "Ajax", "Bootstrap", "ReactJS"]),
   ("Back-End", ["CoreJava", "Servlet", "Spring Boot", "Hibernate", "Spring Security",
      "RESTful Web Services"]),
   ("Database", ["SQL", "MySQL", "PostgreSQL", "MongoDB", "Oracle"]),
   ("Architecture", ["Monolithic", "Microservices"]),
   ("Unit Testing", ["JUnit", "Mockito"]),
   ("Automation Testing Frameworks", ["Selenium", "TestNG", "Cucumber", "JUnit"]),
   ("API Testing", ["Postman", "WSO2"]),
   ("Load Testing", ["JMeter"]),
   ("CI/CD", ["Jenkins", "Bamboo"]),
   ("Version Control", ["Git", "GitHub", "GitLab", "BitBucket"]),
   ("Artifact Management", ["JFrog"]),
   ("IDE", ["Eclipse", "IntelliJ", "VS Code", "STS"]),
   ("Operating Systems", ["Windows", "Linux (CentOS)"]),
   ("PMTools", ["JIRA", "Azure Boards"]),
   ("Cloud", ["AWS", "Microsoft Azure", "VMware ESXi"])]

/-- The lookup `typeLanguageMap[key]`; `none` is `undefined`.  (Keys inherited
from `Object.prototype` are left out: the type control offers the catalog keys
only.) -/
def typeLanguageMap (key : String) : Option (List String) :=
  (typeLanguageTable.find? (fun e => e.1 == key)).map Prod.snd

/-- The list `Object.keys(typeLanguageMap)`. -/
def typeOptions : List String :=
  typeLanguageTable.map Prod.fst

/-- The language a type selects: `(typeLanguageMap[t] || [])[0] || ''`. -/
def firstLanguage (t : String) : String :=
  match (typeLanguageMap t).getD [] with
  | [] => ""
  | l :: _ => l

/-- The all-default draft `initialForm`. -/
def initialForm : Form :=
  { type := "Front-End"
    language := ((typeLanguageMap "Front-End").getD []).headD ""
    question := ""
    explanation := ""
    usecase := ""
    exampleCode := ""
    output := ""
    summary := "" }

/-! ## List derivation pipeline -/

/-- The predicate `filterByType`: a falsy selection (`null` or `''`) lets every
record pass, otherwise `it.type === selectedTypeFilter`. -/
def filterByType (selectedTypeFilter : Option String) (it : Record) : Bool :=
  match selectedTypeFilter with
  | none => true
  | some sel => if sel = "" then true else decide (it.type = some sel)

/-- The normalised search term `q = (searchTerm || '').trim().toLowerCase()`. -/
def searchQuery (lower : String → String) (searchTerm : String) : String :=
  lower (trim searchTerm)

/-- The haystack `hay` of one record. -/
def haystack (lower : String → String) (it : Record) : String :=
  join " "
    ([it.question,
      some (stripHtml it.explanation),
      some (stripHtml it.usecase),
      some (stripHtml it.summary),
      it.exampleCode,
      it.output].map (fun s => lower (s.getD "")))

/-- The search predicate of the second `filter`. -/
def searchFilter (lower : String → String) (searchTerm : String) (it : Record) : Bool :=
  let q := searchQuery lower searchTerm
  if q = "" then true
  else indexOf (haystack lower it) q != -1

/-- The list `filtered`. -/
def filtered (lower : String → String) (items : List Record)
    (selectedTypeFilter : Option String) (searchTerm : String) : List Record :=
  (items.filter (filterByType selectedTypeFilter)).filter (searchFilter lower searchTerm)

/-- `Math.ceil(a / b)` on non-negative integers, in integer arithmetic.  (For
`b = 0` JavaScript yields `Infinity` or `NaN`; the page-size control only
offers 5, 10 and 20.) -/
def ceilDiv (a b : Nat) : Nat :=
  (a + b - 1) / b

/-- `totalPages = Math.max(1, Math.ceil(total / pageSize))`. -/
def totalPagesOf (total pageSize : Nat) : Nat :=
  max 1 (ceilDiv total pageSize)

/-- The values derived for one render of the list (`stop` is the source's
`end`). -/
structure Page where
  pageItems : List Record
  total : Nat
  totalPages : Nat
  start : Int
  stop : Int
  deriving DecidableEq, Repr

/-- The derivation `total`, `totalPages`, `start`, `end`, `pageItems`. -/
def paginate (rows : List Record) (currentPage : Int) (pageSize : Nat) : Page :=
  let total := rows.length
  let totalPages := totalPagesOf total pageSize
  let start := (currentPage - 1) * (pageSize : Int)
  let stop := min (total : Int) (start + (pageSize : Int))
  { pageItems := slice rows start stop
    total := total
    totalPages := totalPages
    start := start
    stop := stop }

/-- The whole pipeline: filter by category, filter by search, paginate. -/
def pipeline (lower : String → String) (items : List Record)
    (selectedTypeFilter : Option String) (searchTerm : String)
    (currentPage : Int) (pageSize : Nat) : Page :=
  paginate (filtered lower items selectedTypeFilter searchTerm) currentPage pageSize

/-! ## Application state -/

/-- The two tabs of the navigation bar. -/
inductive Tab where
  | dashboard
  | qa
  deriving DecidableEq, Repr

/-- The `useState` cells of `App`. -/
structure State where
  form : Form
  items : List Record
  saving : Bool
  showSavedModal : Bool
  loadingItems : Bool
  selectedTypeFilter : Option String
  activeTab : Tab
  showLogoutConfirm : Bool
  showForm : Bool
  typeCounts : List (String × Nat)
  currentPage : Int
  pageSize : Nat
  searchTerm : String
  deriving DecidableEq, Repr

/-- The state after the first render. -/
def initialState : State :=
  { form := initialForm
    items := []
    saving := false
    showSavedModal := false
    loadingItems := false
    selectedTypeFilter := none
    activeTab := Tab.dashboard
    showLogoutConfirm := false
    showForm := true
    typeCounts := []
    currentPage := 1
    pageSize := 5
    searchTerm := "" }

/-- The page derived from a state. -/
def view (lower : String → String) (s : State) : Page :=
  pipeline lower s.items s.selectedTypeFilter s.searchTerm s.currentPage s.pageSize

/-! ### Setters of a handler that runs to completion

`useEffect(() => setCurrentPage(1), [selectedTypeFilter, pageSize, items, searchTerm])`
runs after every render in which one of the four values differs (`Object.is`)
from the previous render.  Strings, numbers and `null` compare by value; the
array passed to `setItems` is always a fresh object, so it always differs.
The two setters below give the state once the effect has run; they are used
by `fetchList`, `confirmLogout` and `addQA`, which describe a handler up to its
settled end state.  The render that React commits between the setter and the
effect is a state of the render-level model further down. -/

/-- `setItems(list)` followed by the reset effect. -/
def setItems (list : List Record) (s : State) : State :=
  { s with items := list, currentPage := 1 }

/-- `setSelectedTypeFilter(v)` followed by the reset effect. -/
def setSelectedTypeFilter (v : Option String) (s : State) : State :=
  if s.selectedTypeFilter = v then s
  else { s with selectedTypeFilter := v, currentPage := 1 }

/-! ## Remote store -/

/-- What `fetch` yields: a rejection (transport failure) or a response with a
status and a body. -/
inductive Fetched (β : Type) where
  | failed (message : String)
  | response (status : Nat) (body : β)
  deriving Repr

/-- What `resp.json()` yields: a rejection, a value that is not an array, or
an array. -/
inductive JsonBody (α : Type) where
  | unparsable
  | notArray
  | array (xs : List α)
  deriving Repr

/-- An object of the type-counts array; `key` and `value` may be absent. -/
structure CountEntry where
  key : Option String
  value : Option Nat
  deriving DecidableEq, Repr

/-- The responses the store gives to the requests of one handler run. -/
structure Network where
  create : Fetched String
  list : Fetched (JsonBody Record)
  counts : Fetched (JsonBody (Option CountEntry))

/-- The property `resp.ok`: status in the range 200 to 299. -/
def isOk (status : Nat) : Bool :=
  decide (200 ≤ status) && decide (status ≤ 299)

/-- A request sent to the store. -/
inductive Request where
  | listAll
  | typeCounts
  | create (body : Form)
  deriving DecidableEq, Repr

/-- What a handler does besides updating state. -/
inductive Effect where
  | request (r : Request)
  | alert (message : String)
  | consoleError (label : String) (message : String)
  deriving DecidableEq, Repr

/-- The result of running a handler to completion: the state, the effects in
order, and the exception that escapes to the caller, if any. -/
structure Outcome where
  state : State
  effects : List Effect
  thrown : Option String
  deriving DecidableEq, Repr

/-- The requests among the effects. -/
def requestsOf (effects : List Effect) : List Request :=
  effects.filterMap (fun e => match e with
    | Effect.request r => some r
    | _ => none)

/-- The text `HTTP <status>` of the thrown error. -/
def httpMessage (status : Nat) : String :=
  "HTTP " ++ toString status

/-- The `try` block of `fetchList` after the request was sent. -/
def fetchListTry (resp : Fetched (JsonBody Record)) (s : State) : Except String State :=
  match resp with
  | Fetched.failed message => Except.error message
  | Fetched.response status body =>
    if isOk status then
      match body with
      | JsonBody.unparsable => Except.error "invalid JSON"
      | JsonBody.notArray => Except.ok (setItems [] s)
      | JsonBody.array xs => Except.ok (setItems xs s)
    else Except.error (httpMessage status)

/-- The handler `fetchList`. -/
def fetchList (resp : Fetched (JsonBody Record)) (s : State) : Outcome :=
  let s1 := { s with loadingItems := true }
  match fetchListTry resp s1 with
  | Except.ok s2 =>
    { state := { s2 with loadingItems := false }
      effects := [Effect.request Request.listAll]
      thrown := none }
  | Except.error message =>
    { state := { s1 with loadingItems := false }
      effects := [Effect.request Request.listAll,
        Effect.consoleError "Failed to load items" message]
      thrown := none }

/-- The assignment `map[key] = value` on the counts object. -/
def setCount (key : String) (value : Nat) : List (String × Nat) → List (String × Nat)
  | [] => [(key, value)]
  | (k, v) :: rest =>
    if k = key then (k, value) :: rest else (k, v) :: setCount key value rest

/-- One step of the `forEach`: `if (it && it.key) map[it.key] = it.value || 0`.
An empty key is falsy; assigning a number to the key `__proto__` of an object
literal stores nothing. -/
def addCount (map : List (String × Nat)) (it : Option CountEntry) : List (String × Nat) :=
  match it with
  | none => map
  | some e =>
    match e.key with
    | none => map
    | some k =>
      if k = "" then map
      else if k = "__proto__" then map
      else setCount k (e.value.getD 0) map

/-- The `try` block of `fetchCounts` after the request was sent. -/
def fetchCountsTry (resp : Fetched (JsonBody (Option CountEntry))) (s : State) :
    Except String State :=
  match resp with
  | Fetched.failed message => Except.error message
  | Fetched.response status body =>
    if isOk status then
      match body with
      | JsonBody.unparsable => Except.error "invalid JSON"
      | JsonBody.notArray => Except.ok { s with typeCounts := [] }
      | JsonBody.array xs => Except.ok { s with typeCounts := xs.foldl addCount [] }
    else Except.error (httpMessage status)

/-- The handler `fetchCounts`. -/
def fetchCounts (resp : Fetched (JsonBody (Option CountEntry))) (s : State) : Outcome :=
  match fetchCountsTry resp s with
  | Except.ok s1 =>
    { state := s1
      effects := [Effect.request Request.typeCounts]
      thrown := none }
  | Except.error message =>
    { state := s
      effects := [Effect.request Request.typeCounts,
        Effect.consoleError "Failed to load type counts" message]
      thrown := none }

/-! ## Handlers -/

/-- The state updates of `handleCardClick`, one batch. -/
def handleCardClick (t : String) (s : State) : State :=
  { s with selectedTypeFilter := some t, activeTab := Tab.qa, showForm := false }

/-- The handler `handleLogout`. -/
def handleLogout (s : State) : State :=
  { s with showLogoutConfirm := true }

/-- The handler `confirmLogout`, run to completion.  (The Logout link calls
`handleLogout`; no control of the component calls `confirmLogout`.) -/
def confirmLogout (s : State) : Outcome :=
  let s1 := setItems [] s
  let s2 := { s1 with form := initialForm }
  let s3 := setSelectedTypeFilter none s2
  { state := { s3 with activeTab := Tab.dashboard, showLogoutConfirm := false }
    effects := []
    thrown := none }

/-- The fields of the form. -/
inductive FieldId where
  | type
  | language
  | question
  | explanation
  | usecase
  | exampleCode
  | output
  | summary
  deriving DecidableEq, Repr

/-- The update `{ ...f, [id]: value }`. -/
def setField (f : Form) (id : FieldId) (value : String) : Form :=
  match id with
  | FieldId.type => { f with type := value }
  | FieldId.language => { f with language := value }
  | FieldId.question => { f with question := value }
  | FieldId.explanation => { f with explanation := value }
  | FieldId.usecase => { f with usecase := value }
  | FieldId.exampleCode => { f with exampleCode := value }
  | FieldId.output => { f with output := value }
  | FieldId.summary => { f with summary := value }

/-- The form update of `handleChange`. -/
def handleChange (f : Form) (id : FieldId) (value : String) : Form :=
  if id = FieldId.type then
    { f with type := value, language := firstLanguage value }
  else setField f id value

/-- The form update of `handleQuillChange(field)`. -/
def handleQuillChange (f : Form) (field : FieldId) (value : String) : Form :=
  setField f field value

/-- The form stored after a successful save:
`{ ...initialForm, language: typeLanguageMap[initialForm.type][0] }`. -/
def savedForm : Form :=
  { initialForm with language := ((typeLanguageMap initialForm.type).getD []).headD "" }

/-- The `try` block of `addQA` after `setSaving(true)`: the result of the
block and the effects up to its end or to the `throw`. -/
def addQATry (net : Network) (s : State) : Except String State × List Effect :=
  match net.create with
  | Fetched.failed message =>
    (Except.error message, [Effect.request (Request.create s.form)])
  | Fetched.response status text =>
    if isOk status then
      let r1 := fetchList net.list s
      let r2 := fetchCounts net.counts r1.state
      (Except.ok { r2.state with form := savedForm, showSavedModal := true },
        Effect.request (Request.create s.form) :: (r1.effects ++ r2.effects))
    else
      (Except.error (if text = "" then httpMessage status else text),
        [Effect.request (Request.create s.form)])

/-- The text `err.message || err` of a caught error.  An error with an empty
message prints as its name; the errors thrown in `addQA` carry a non-empty
message, so the only such error is the `TypeError` of a rejected `fetch`. -/
def errorText (message : String) : String :=
  if message = "" then "TypeError" else message

/-- The handler `addQA`. -/
def addQA (net : Network) (s : State) : Outcome :=
  if trim s.form.question = "" then
    { state := s
      effects := [Effect.alert "Please enter a question"]
      thrown := none }
  else
    let s1 := { s with saving := true }
    match addQATry net s1 with
    | (Except.ok s2, effects) =>
      { state := { s2 with saving := false }
        effects := effects
        thrown := none }
    | (Except.error message, effects) =>
      { state := { s1 with saving := false }
        effects := effects ++ [Effect.consoleError "Save failed" message,
          Effect.alert ("Failed to save: " ++ errorText message)]
        thrown := none }

/-! ## Pagination controls -/

/-- The page numbers of the rendered buttons: at most seven, around the
current page. -/
def pageButtons (currentPage : Int) (totalPages : Nat) : List Int :=
  let maxButtons : Int := 7
  let from0 := max 1 (currentPage - 3)
  let to0 := from0 + maxButtons - 1
  let to1 := if to0 > (totalPages : Int) then (totalPages : Int) else to0
  let from1 := if to0 > (totalPages : Int) then max 1 (to1 - maxButtons + 1) else from0
  (List.range (to1 - from1 + 1).toNat).map (fun (i : Nat) => from1 + (i : Int))

/-- The Prev button; it is disabled on the first page. -/
def prevPage (s : State) : State :=
  if s.currentPage ≤ 1 then s
  else { s with currentPage := max 1 (s.currentPage - 1) }

/-- The Next button; it is disabled on the last page. -/
def nextPage (lower : String → String) (s : State) : State :=
  let totalPages := (view lower s).totalPages
  if s.currentPage ≥ (totalPages : Int) then s
  else { s with currentPage := min (totalPages : Int) (s.currentPage + 1) }

/-- A click on the page-number button `p`; only rendered buttons can be
clicked. -/
def gotoPage (lower : String → String) (p : Int) (s : State) : State :=
  if p ∈ pageButtons s.currentPage (view lower s).totalPages then
    { s with currentPage := p }
  else s

/-- The options of the page-size control. -/
inductive PageSizeOption where
  | five
  | ten
  | twenty
  deriving DecidableEq, Repr

/-- The number `Number(e.target.value)` of an option. -/
def PageSizeOption.toNat : PageSizeOption → Nat
  | PageSizeOption.five => 5
  | PageSizeOption.ten => 10
  | PageSizeOption.twenty => 20

/-! ## Render-level model

React commits one render for every batch of state updates.  After a commit in
which `selectedTypeFilter`, `pageSize`, `items` or `searchTerm` differs from
the render before, the reset effect runs and its `setCurrentPage(1)` commits
one more render; a pending effect is flushed before the next batch of updates
is processed.  The updates a handler makes in one synchronous stretch form one
batch.  After an `await` a root with automatic batching commits the updates of
the continuation together and a legacy root commits them one by one: both
kinds of batch are commits below.  The batches may come in any order, so every
run of the component is a path of this model. -/

/-- A batch of state updates committed in one render. -/
inductive Commit where
  /-- `fetchList`: `setLoadingItems(true)`. -/
  | listStarted
  /-- `fetchList` after the response: `setItems` on success and the
  `setLoadingItems(false)` of the `finally` block, batched. -/
  | listAnswered (resp : Fetched (JsonBody Record))
  /-- `fetchList` after the response, unbatched: `setItems` on success. -/
  | itemsStored (resp : Fetched (JsonBody Record))
  /-- `fetchList`, unbatched: `setLoadingItems(false)`. -/
  | loadingCleared
  /-- `fetchCounts` after the response: `setTypeCounts` on success. -/
  | countsAnswered (resp : Fetched (JsonBody (Option CountEntry)))
  /-- `handleCardClick(t)`. -/
  | cardClicked (t : String)
  /-- The Clear filter button: `setSelectedTypeFilter(null)`. -/
  | filterCleared
  /-- The search box: `setSearchTerm(value)`. -/
  | searchChanged (value : String)
  /-- The page-size control: `setPageSize(Number(value))`. -/
  | pageSizeChanged (opt : PageSizeOption)
  /-- The Prev button. -/
  | prevClicked
  /-- The Next button. -/
  | nextClicked
  /-- The page-number button `p`. -/
  | pageClicked (p : Int)
  /-- `handleLogout`. -/
  | logoutClicked
  /-- `confirmLogout`: its five setters, one batch. -/
  | logoutConfirmed
  /-- `handleChange` on a form control. -/
  | fieldChanged (id : FieldId) (value : String)
  /-- `handleQuillChange(field)`. -/
  | quillChanged (field : FieldId) (value : String)
  /-- `addQA` up to the first `await`: the blank-question guard, then
  `setSaving(true)`. -/
  | saveStarted
  /-- `addQA` after the refreshes: `setForm`, `setShowSavedModal(true)` and
  the `setSaving(false)` of the `finally` block, batched. -/
  | saveFinished
  /-- `addQA`, unbatched: `setForm` with the default draft. -/
  | formReset
  /-- `addQA`, unbatched: `setShowSavedModal(true)`. -/
  | savedShown
  /-- `addQA`: the `setSaving(false)` of the `finally` block alone (the failure
  path, or unbatched). -/
  | savingCleared
  /-- A tab of the navigation bar. -/
  | tabSelected (tab : Tab)
  /-- The saved modal is closed: `setShowSavedModal(false)`. -/
  | savedModalClosed

/-- The `setItems` call of `fetchList` for a response, if it is reached: the
array stored. -/
def storedItems (resp : Fetched (JsonBody Record)) : Option (List Record) :=
  match resp with
  | Fetched.failed _ => none
  | Fetched.response status body =>
    if isOk status then
      match body with
      | JsonBody.unparsable => none
      | JsonBody.notArray => some []
      | JsonBody.array xs => some xs
    else none

/-- The state cells after a batch, before any effect has run, and whether
`setItems` stored an array in the batch. -/
def applyCommit (lower : String → String) (s : State) : Commit → State × Bool
  | Commit.listStarted => ({ s with loadingItems := true }, false)
  | Commit.listAnswered resp =>
    match storedItems resp with
    | some xs => ({ s with items := xs, loadingItems := false }, true)
    | none => ({ s with loadingItems := false }, false)
  | Commit.itemsStored resp =>
    match storedItems resp with
    | some xs => ({ s with items := xs }, true)
    | none => (s, false)
  | Commit.loadingCleared => ({ s with loadingItems := false }, false)
  | Commit.countsAnswered resp => ((fetchCounts resp s).state, false)
  | Commit.cardClicked t => (handleCardClick t s, false)
  | Commit.filterCleared => ({ s with selectedTypeFilter := none }, false)
  | Commit.searchChanged value => ({ s with searchTerm := value }, false)
  | Commit.pageSizeChanged opt => ({ s with pageSize := opt.toNat }, false)
  | Commit.prevClicked => (prevPage s, false)
  | Commit.nextClicked => (nextPage lower s, false)
  | Commit.pageClicked p => (gotoPage lower p s, false)
  | Commit.logoutClicked => (handleLogout s, false)
  | Commit.logoutConfirmed =>
    ({ s with items := [], form := initialForm, selectedTypeFilter := none,
              activeTab := Tab.dashboard, showLogoutConfirm := false }, true)
  | Commit.fieldChanged id value => ({ s with form := handleChange s.form id value }, false)
  | Commit.quillChanged field value =>
    ({ s with form := handleQuillChange s.form field value }, false)
  | Commit.saveStarted =>
    (if trim s.form.question = "" then s else { s with saving := true }, false)
  | Commit.saveFinished =>
    ({ s with form := savedForm, showSavedModal := true, saving := false }, false)
  | Commit.formReset => ({ s with form := savedForm }, false)
  | Commit.savedShown => ({ s with showSavedModal := true }, false)
  | Commit.savingCleared => ({ s with saving := false }, false)
  | Commit.tabSelected tab =>
    match tab with
    | Tab.dashboard => ({ s with activeTab := Tab.dashboard }, false)
    | Tab.qa => ({ s with activeTab := Tab.qa, showForm := true }, false)
  | Commit.savedModalClosed => ({ s with showSavedModal := false }, false)

/-- One committed render: the state cells it shows, and whether the reset
effect is still to run for it. -/
structure Render where
  state : State
  resetPending : Bool
  deriving DecidableEq, Repr

/-- The dependency comparison of the reset effect between two renders. -/
def depsDiffer (before after : State) (itemsStored : Bool) : Bool :=
  itemsStored
    || decide (after.selectedTypeFilter ≠ before.selectedTypeFilter)
    || decide (after.pageSize ≠ before.pageSize)
    || decide (after.searchTerm ≠ before.searchTerm)

/-- The render committed for a batch of updates. -/
def commitRender (lower : String → String) (r : Render) (c : Commit) : Render :=
  { state := (applyCommit lower r.state c).1
    resetPending :=
      depsDiffer r.state (applyCommit lower r.state c).1 (applyCommit lower r.state c).2 }

/-- The render committed by the reset effect, `setCurrentPage(1)`. -/
def runEffect (r : Render) : Render :=
  { state := { r.state with currentPage := 1 }
    resetPending := false }

/-- The first render; every effect runs after it. -/
def mountRender : Render :=
  { state := initialState
    resetPending := true }

/-- The renders the component commits: the first render, the render of a batch
of updates when no effect is pending, and the render of the reset effect when
it is. -/
inductive RenderReachable (lower : String → String) : Render → Prop where
  | mount : RenderReachable lower mountRender
  | commit (r : Render) (c : Commit) :
      RenderReachable lower r → r.resetPending = false →
      RenderReachable lower (commitRender lower r c)
  | effect (r : Render) :
      RenderReachable lower r → r.resetPending = true →
      RenderReachable lower (runEffect r)

/-- The state a render settles in: after the reset effect when it is pending. -/
def settle (r : Render) : State :=
  if r.resetPending then (runEffect r).state else r.state

/-- The settled state after a sequence of batches, each committed from the
settled state of the one before. -/
def settleAfter (lower : String → String) (s : State) (cs : List Commit) : State :=
  cs.foldl (fun t c => settle (commitRender lower { state := t, resetPending := false } c)) s

/-! ## Specification-side definitions

These follow the words of the specification; the theorems below compare them
with what the code computes. -/

/-- Twelve records, numbered 1 to 12. -/
def sampleRecords : List Record :=
  (List.range 12).map (fun i => { id := some (i + 1), type := some "Back-End" })

/-- The page index clamped into `[1, totalPages]`. -/
def clampPage (p : Int) (totalPages : Nat) : Nat :=
  (max 1 (min p (totalPages : Int))).toNat

/-- The window `rows[(c-1)*pageSize : min(total, c*pageSize)]`. -/
def window (rows : List Record) (c pageSize : Nat) : List Record :=
  (rows.drop ((c - 1) * pageSize)).take (min rows.length (c * pageSize) - (c - 1) * pageSize)

/-- The page items as the specification words them: the window of the clamped
page index. -/
def specPageItems (rows : List Record) (p : Int) (pageSize : Nat) : List Record :=
  window rows (clampPage p (totalPagesOf rows.length pageSize)) pageSize

/-- The string `q` occurs in `hay` as a contiguous substring. -/
def IsSubstring (q hay : String) : Prop :=
  q.data <:+: hay.data

/-- The text of a field with every `<...>` tag removed (nothing put in its
place), as the specification words markup stripping. -/
def tagFreeText (s : String) : String :=
  ⟨replaceTags [] s.length s.data⟩

/-- The four values the page-reset effect depends on are the same in both states. -/
def SameDeps (s t : State) : Prop :=
  t.items = s.items ∧ t.selectedTypeFilter = s.selectedTypeFilter
    ∧ t.searchTerm = s.searchTerm ∧ t.pageSize = s.pageSize

/-- One of the four values the page-reset effect depends on differs. -/
def DepsChanged (s t : State) : Prop :=
  t.selectedTypeFilter ≠ s.selectedTypeFilter ∨ t.searchTerm ≠ s.searchTerm
    ∨ t.pageSize ≠ s.pageSize ∨ t.items ≠ s.items

/-- The page index lies in `[1, totalPages]`. -/
def PageInRange (lower : String → String) (s : State) : Prop :=
  1 ≤ s.currentPage ∧ s.currentPage ≤ ((view lower s).totalPages : Int)

/-- The render after the list fetch has returned the twelve sample records,
the reset effect has run and Next was clicked: page 2 of 3. -/
def sampleRender : Render :=
  commitRender asciiLower
    (runEffect
      (commitRender asciiLower (runEffect mountRender)
        (Commit.listAnswered (Fetched.response 200 (JsonBody.array sampleRecords)))))
    Commit.nextClicked

/-- The render on page 3 of 3 of the twelve sample records. -/
def lastPageRender : Render :=
  commitRender asciiLower sampleRender Commit.nextClicked

/-- The render committed when `zzz` is typed into the search box on page 3 of
3, before the reset effect runs. -/
def staleRender : Render :=
  commitRender asciiLower lastPageRender (Commit.searchChanged "zzz")

/-- A string is blank: empty, or white space only. -/
def IsBlank (s : String) : Prop :=
  ∀ c ∈ s.data, isWhiteSpace c = true

instance (s : String) : Decidable (IsBlank s) :=
  inferInstanceAs (Decidable (∀ c ∈ s.data, isWhiteSpace c = true))

/-- A state whose draft has a question of white space only; the other fields
of the draft are filled in. -/
def blankQuestionState : State :=
  { initialState with
    form := { initialForm with question := "  \t ", explanation := "<p>text</p>" } }

/-- A store that accepts the create call and answers both refreshes. -/
def acceptingNetwork : Network :=
  { create := Fetched.response 201 ""
    list := Fetched.response 200 (JsonBody.array sampleRecords)
    counts := Fetched.response 200
      (JsonBody.array [some { key := some "Back-End", value := some 12 }]) }

/-- The create call fails: the transport fails or the status is not 2xx. -/
def CreateFails (r : Fetched String) : Prop :=
  match r with
  | Fetched.failed _ => True
  | Fetched.response status _ => status < 200 ∨ 299 < status

/-- The create call succeeds: a response with a 2xx status. -/
def CreateSucceeds (r : Fetched String) : Prop :=
  match r with
  | Fetched.failed _ => False
  | Fetched.response status _ => 200 ≤ status ∧ status ≤ 299

/-- The list call fails: the transport fails or the status is not 2xx. -/
def ListFails (r : Fetched (JsonBody Record)) : Prop :=
  match r with
  | Fetched.failed _ => True
  | Fetched.response status _ => status < 200 ∨ 299 < status

/-- A state in the middle of a session: a filter, a search term, page size 10,
counts and one record. -/
def busyState : State :=
  { initialState with
    items := [{ id := some 1, type := some "Back-End", question := some "Java 8 Features" }]
    form := { initialForm with question := "What is a stream?" }
    selectedTypeFilter := some "Back-End"
    activeTab := Tab.qa
    showForm := false
    typeCounts := [("Back-End", 1)]
    pageSize := 10
    searchTerm := "java" }

/-- A store that rejects the create call with status 500. -/
def failingNetwork : Network :=
  { create := Fetched.response 500 "boom"
    list := Fetched.failed "offline"
    counts := Fetched.failed "offline" }

/-- The first stage of the pipeline, `items.filter(filterByType)`. -/
def categoryFilter (selectedTypeFilter : Option String) (items : List Record) :
    List Record :=
  items.filter (filterByType selectedTypeFilter)

/-- The selected category is unset: `null` or the empty string. -/
def IsUnset (selectedTypeFilter : Option String) : Prop :=
  selectedTypeFilter = none ∨ selectedTypeFilter = some ""

/-- Five records of mixed types, one of them without a type. -/
def mixedRecords : List Record :=
  [{ id := some 1, type := some "Back-End" },
   { id := some 2, type := some "Front-End" },
   { id := some 3 },
   { id := some 4, type := some "Back-End" },
   { id := some 5, type := some "Database" }]

/-! ## Lemmas on the primitives -/

theorem slice_of_nat {α : Type} (xs : List α) (a b : Nat) :
    slice xs (a : Int) (b : Int)
      = (xs.drop (min a xs.length)).take (min b xs.length - min a xs.length) := by
  unfold slice relIndex
  have ha : ¬ ((a : Int) < 0) := by omega
  have hb : ¬ ((b : Int) < 0) := by omega
  simp only [ha, hb, if_false, Int.toNat_ofNat]

theorem paginate_pageItems_in_range (rows : List Record) (n pageSize : Nat) :
    (paginate rows ((n : Int) + 1) pageSize).pageItems = window rows (n + 1) pageSize := by
  unfold paginate window
  simp only [add_sub_cancel_right, Nat.add_sub_cancel]
  have h1 : ((n : Int) * (pageSize : Int)) = ((n * pageSize : Nat) : Int) := by
    push_cast; ring
  have h2 : min (rows.length : Int) ((n : Int) * pageSize + pageSize)
      = ((min rows.length (n * pageSize + pageSize) : Nat) : Int) := by
    push_cast; ring_nf
  rw [h2, h1, slice_of_nat]
  have h3 : (n + 1) * pageSize = n * pageSize + pageSize := by ring
  rw [h3]
  by_cases h : n * pageSize ≤ rows.length
  · rw [Nat.min_eq_left h]
    congr 1
    omega
  · have hd : ∀ k, rows.length ≤ k → rows.drop k = [] :=
      fun k hk => List.drop_eq_nil_of_le hk
    rw [hd _ (by omega), hd _ (by omega)]
    simp

theorem indexOfFrom_ne_neg_one_iff (q hay : List Char) (i : Nat) :
    indexOfFrom q hay i ≠ -1 ↔ q <:+: hay := by
  induction hay generalizing i with
  | nil =>
    unfold indexOfFrom
    by_cases h : q.isPrefixOf [] = true
    · rw [if_pos h]
      have hp : q <+: [] := List.isPrefixOf_iff_prefix.mp h
      exact ⟨fun _ => hp.isInfix, fun _ => by omega⟩
    · rw [if_neg h]
      constructor
      · intro hne
        exact absurd rfl hne
      · intro hin
        have hq : q = [] := List.infix_nil.mp hin
        subst hq
        exact absurd (List.isPrefixOf_iff_prefix.mpr (List.prefix_refl [])) h
  | cons c cs ih =>
    unfold indexOfFrom
    by_cases h : q.isPrefixOf (c :: cs) = true
    · rw [if_pos h]
      have hp : q <+: c :: cs := List.isPrefixOf_iff_prefix.mp h
      exact ⟨fun _ => hp.isInfix, fun _ => by omega⟩
    · rw [if_neg h, ih (i + 1), List.infix_cons_iff]
      constructor
      · intro hin
        exact Or.inr hin
      · intro hin
        rcases hin with hp | hin
        · exact absurd (List.isPrefixOf_iff_prefix.mpr hp) h
        · exact hin

theorem indexOf_ne_neg_one_iff (hay q : String) :
    indexOf hay q ≠ -1 ↔ IsSubstring q hay :=
  indexOfFrom_ne_neg_one_iff q.data hay.data 0

theorem searchFilter_of_substring (lower : String → String) (searchTerm : String)
    (it : Record) (h : IsSubstring (searchQuery lower searchTerm) (haystack lower it)) :
    searchFilter lower searchTerm it = true := by
  unfold searchFilter
  by_cases hq : searchQuery lower searchTerm = ""
  · simp [hq]
  · have hne := (indexOf_ne_neg_one_iff (haystack lower it) (searchQuery lower searchTerm)).mpr h
    simp [hq, hne]

theorem haystack_data (lower : String → String) (it : Record) :
    (haystack lower it).data
      = (lower (it.question.getD "")).data ++ ' ' ::
        ((lower (stripHtml it.explanation)).data ++ ' ' ::
        ((lower (stripHtml it.usecase)).data ++ ' ' ::
        ((lower (stripHtml it.summary)).data ++ ' ' ::
        ((lower (it.exampleCode.getD "")).data ++ ' ' ::
        (lower (it.output.getD "")).data)))) := by
  simp [haystack, join, String.data_append]

theorem le_ceilDiv_mul (a b : Nat) (hb : 0 < b) : a ≤ ceilDiv a b * b := by
  unfold ceilDiv
  have h1 := Nat.div_add_mod (a + b - 1) b
  have h2 := Nat.mod_lt (a + b - 1) hb
  have h3 : b * ((a + b - 1) / b) = (a + b - 1) / b * b := Nat.mul_comm _ _
  omega

theorem ceilDiv_pred_mul_lt (a b : Nat) (hb : 0 < b) (ha : 0 < a) :
    (ceilDiv a b - 1) * b < a := by
  unfold ceilDiv
  have h1 := Nat.div_add_mod (a + b - 1) b
  have h3 : b * ((a + b - 1) / b) = (a + b - 1) / b * b := Nat.mul_comm _ _
  rcases Nat.eq_zero_or_pos ((a + b - 1) / b) with h0 | hpos
  · rw [h0]
    simpa using ha
  · obtain ⟨c, hc⟩ : ∃ c, (a + b - 1) / b = c + 1 := ⟨(a + b - 1) / b - 1, by omega⟩
    rw [hc] at h1 h3 ⊢
    have h4 : (c + 1) * b = c * b + b := by ring
    simp only [Nat.add_sub_cancel]
    omega

theorem ceilDiv_pos (a b : Nat) (hb : 0 < b) (ha : 0 < a) : 0 < ceilDiv a b := by
  have h := le_ceilDiv_mul a b hb
  rcases Nat.eq_zero_or_pos (ceilDiv a b) with h0 | hpos
  · rw [h0] at h
    omega
  · exact hpos

theorem ceilDiv_eq_ceil (a b : Nat) (hb : 0 < b) :
    ceilDiv a b = ⌈(a : ℚ) / (b : ℚ)⌉₊ := by
  have hbq : (0 : ℚ) < (b : ℚ) := by exact_mod_cast hb
  rcases Nat.eq_zero_or_pos a with ha | ha
  · subst ha
    have h0 : ceilDiv 0 b = 0 := by
      unfold ceilDiv
      exact Nat.div_eq_of_lt (by omega)
    simp [h0]
  · have hpos := ceilDiv_pos a b hb ha
    symm
    rw [Nat.ceil_eq_iff (by omega)]
    constructor
    · rw [lt_div_iff₀ hbq]
      exact_mod_cast ceilDiv_pred_mul_lt a b hb ha
    · rw [div_le_iff₀ hbq]
      exact_mod_cast le_ceilDiv_mul a b hb

theorem matchTag_length_lt (s after : List Char) (h : matchTag s = some after) :
    after.length < s.length := by
  cases s with
  | nil => simp [matchTag] at h
  | cons c rest =>
    simp only [matchTag] at h
    have hlen : (rest.dropWhile (fun d => d != '>')).length ≤ rest.length :=
      (List.dropWhile_suffix _).length_le
    by_cases hc : c = '<'
    · rw [if_pos hc] at h
      cases hd : rest.dropWhile (fun d => d != '>') with
      | nil =>
        rw [hd] at h
        exact absurd h (by simp)
      | cons x tl =>
        rw [hd] at h hlen
        simp only at h
        by_cases he : (rest.takeWhile (fun d => d != '>')).isEmpty = true
        · rw [if_pos he] at h
          exact absurd h (by simp)
        · rw [if_neg he] at h
          simp only [Option.some.injEq] at h
          subst h
          simp only [List.length_cons] at hlen ⊢
          omega
    · rw [if_neg hc] at h
      exact absurd h (by simp)

/-- Fuel adequacy: any two amounts of fuel that reach the length of the input
give the same result, so `replaceTags` never stops short in `stripHtml`. -/
theorem replaceTags_fuel (rep : List Char) (n m : Nat) (s : List Char)
    (hn : s.length ≤ n) (hm : s.length ≤ m) :
    replaceTags rep n s = replaceTags rep m s := by
  induction n generalizing m s with
  | zero =>
    have hs : s = [] := List.length_eq_zero.mp (by omega)
    subst hs
    cases m <;> rfl
  | succ n ih =>
    cases s with
    | nil => cases m <;> rfl
    | cons c cs =>
      cases m with
      | zero => simp at hm
      | succ m =>
        simp only [List.length_cons] at hn hm
        unfold replaceTags
        cases hmt : matchTag (c :: cs) with
        | none =>
          simp only
          rw [ih m cs (by omega) (by omega)]
        | some after =>
          have hlt := matchTag_length_lt _ _ hmt
          simp only [List.length_cons] at hlt
          simp only
          rw [ih m after (by omega) (by omega)]

/-! ## C1: the page window -/

/-- C1 (as stated, refuted): the derivation does not clamp the page index. With
twelve records and page size 5, page index 0 and page index 4 both give an
empty `pageItems`, where the window of the clamped index holds records 1 to 5
and records 11 to 12. -/
theorem pageItems_unclamped_counterexample :
    (pipeline asciiLower sampleRecords none "" 0 5).pageItems = []
    ∧ specPageItems (filtered asciiLower sampleRecords none "") 0 5 = sampleRecords.take 5
    ∧ (pipeline asciiLower sampleRecords none "" 4 5).pageItems = []
    ∧ specPageItems (filtered asciiLower sampleRecords none "") 4 5 = sampleRecords.drop 10
    ∧ (pipeline asciiLower sampleRecords none "" 0 5).pageItems
        ≠ specPageItems (filtered asciiLower sampleRecords none "") 0 5 := by
  decide

/-- C1 (amended): for every collection, selected category, search term, positive
page size and every page index `p` with `1 ≤ p ≤ totalPages`, the page index is
its own clamp and the pipeline's `pageItems` are
`filtered[(p-1)*pageSize : min(totalCount, p*pageSize)]`. -/
theorem pipeline_pageItems_in_range (lower : String → String) (items : List Record)
    (selectedTypeFilter : Option String) (searchTerm : String) (pageSize : Nat) (p : Int)
    (_hsize : 0 < pageSize) (hlo : 1 ≤ p)
    (hhi : p ≤ ((pipeline lower items selectedTypeFilter searchTerm p pageSize).totalPages : Int)) :
    (clampPage p (pipeline lower items selectedTypeFilter searchTerm p pageSize).totalPages : Int) = p
    ∧ (pipeline lower items selectedTypeFilter searchTerm p pageSize).pageItems
        = specPageItems (filtered lower items selectedTypeFilter searchTerm) p pageSize := by
  have hclamp : ∀ t : Nat, p ≤ (t : Int) → ((clampPage p t : Nat) : Int) = p := by
    intro t ht
    unfold clampPage
    omega
  refine ⟨hclamp _ hhi, ?_⟩
  have htp : (pipeline lower items selectedTypeFilter searchTerm p pageSize).totalPages
      = totalPagesOf (filtered lower items selectedTypeFilter searchTerm).length pageSize := rfl
  rw [htp] at hhi
  obtain ⟨n, rfl⟩ : ∃ n : Nat, p = (n : Int) + 1 := ⟨(p - 1).toNat, by omega⟩
  have hc : clampPage ((n : Int) + 1)
      (totalPagesOf (filtered lower items selectedTypeFilter searchTerm).length pageSize)
      = n + 1 := by
    have := hclamp _ hhi
    omega
  unfold specPageItems pipeline
  rw [hc]
  exact paginate_pageItems_in_range _ n pageSize

/-- Witness for C1: twelve records, no filter, no search; page 1 with page size 5
shows records 1 to 5 and with page size 10 records 1 to 10. -/
theorem pipeline_pageItems_in_range_witness :
    (pipeline asciiLower sampleRecords none "" 1 5).pageItems
        = specPageItems (filtered asciiLower sampleRecords none "") 1 5
    ∧ (pipeline asciiLower sampleRecords none "" 1 5).pageItems = sampleRecords.take 5
    ∧ (pipeline asciiLower sampleRecords none "" 1 10).pageItems = sampleRecords.take 10 :=
  ⟨(pipeline_pageItems_in_range asciiLower sampleRecords none "" 5 1
      (by decide) (by decide) (by decide)).2, by decide, by decide⟩

/-! ## C2 and C3: the search filter -/

/-- C2 (as stated, refuted): a tag is replaced by a space, not removed. The term
`foobar` is a substring of the tag-free text `foobar` of the explanation
`<b>foo</b>bar`, yet the stripped text is ` foo bar` and the record does not
pass the search filter. -/
theorem searchFilter_tagFree_counterexample :
    searchQuery asciiLower "foobar" ≠ ""
    ∧ IsSubstring (searchQuery asciiLower "foobar")
        (asciiLower (tagFreeText "<b>foo</b>bar"))
    ∧ stripHtml (some "<b>foo</b>bar") = " foo bar"
    ∧ searchFilter asciiLower "foobar" { explanation := some "<b>foo</b>bar" } = false := by
  refine ⟨by decide, ⟨[], [], by decide⟩, by decide, by decide⟩

/-- C2 (amended): for every record and every search term whose trimmed,
case-folded form is non-empty, the text of explanation, usecase and summary
that enters the haystack is the field with every `<...>` tag replaced by one
space (`stripHtml`); whenever the case-folded term is a substring of the
case-folded text so obtained of one of those fields, the record passes the
search filter. -/
theorem searchFilter_of_stripped_field (lower : String → String) (searchTerm : String)
    (it : Record) (_hq : searchQuery lower searchTerm ≠ "")
    (h : IsSubstring (searchQuery lower searchTerm) (lower (stripHtml it.explanation))
      ∨ IsSubstring (searchQuery lower searchTerm) (lower (stripHtml it.usecase))
      ∨ IsSubstring (searchQuery lower searchTerm) (lower (stripHtml it.summary))) :
    searchFilter lower searchTerm it = true := by
  apply searchFilter_of_substring
  unfold IsSubstring at h ⊢
  rw [haystack_data]
  rcases h with h | h | h
  · obtain ⟨a, b, hab⟩ := h
    exact ⟨(lower (it.question.getD "")).data ++ ' ' :: a, b ++ ' ' ::
        ((lower (stripHtml it.usecase)).data ++ ' ' ::
        ((lower (stripHtml it.summary)).data ++ ' ' ::
        ((lower (it.exampleCode.getD "")).data ++ ' ' ::
        (lower (it.output.getD "")).data))), by simp [← hab]⟩
  · obtain ⟨a, b, hab⟩ := h
    exact ⟨(lower (it.question.getD "")).data ++ ' ' ::
        ((lower (stripHtml it.explanation)).data ++ ' ' :: a), b ++ ' ' ::
        ((lower (stripHtml it.summary)).data ++ ' ' ::
        ((lower (it.exampleCode.getD "")).data ++ ' ' ::
        (lower (it.output.getD "")).data)), by simp [← hab]⟩
  · obtain ⟨a, b, hab⟩ := h
    exact ⟨(lower (it.question.getD "")).data ++ ' ' ::
        ((lower (stripHtml it.explanation)).data ++ ' ' ::
        ((lower (stripHtml it.usecase)).data ++ ' ' :: a)), b ++ ' ' ::
        ((lower (it.exampleCode.getD "")).data ++ ' ' ::
        (lower (it.output.getD "")).data), by simp [← hab]⟩

/-- Witness for C2: the term `Foo Bar` against the explanation `<b>foo</b>bar`,
whose stripped text is ` foo bar`. -/
theorem searchFilter_of_stripped_field_witness :
    searchQuery asciiLower "Foo Bar" ≠ ""
    ∧ IsSubstring (searchQuery asciiLower "Foo Bar")
        (asciiLower (stripHtml (some "<b>foo</b>bar")))
    ∧ searchFilter asciiLower "Foo Bar" { explanation := some "<b>foo</b>bar" } = true :=
  ⟨by decide, ⟨[' '], [], by decide⟩,
    searchFilter_of_stripped_field asciiLower "Foo Bar" { explanation := some "<b>foo</b>bar" }
      (by decide) (Or.inl ⟨[' '], [], by decide⟩)⟩

/-- C3: search is a case-insensitive substring match on the question. For every
record and every search term, if the trimmed, lower-cased term is a substring
of the lower-cased question (an absent question counts as empty), the record
passes the search filter, whatever the other fields hold. -/
theorem searchFilter_of_question (lower : String → String) (searchTerm : String)
    (it : Record)
    (h : IsSubstring (lower (trim searchTerm)) (lower (it.question.getD ""))) :
    searchFilter lower searchTerm it = true := by
  apply searchFilter_of_substring
  unfold IsSubstring at h ⊢
  rw [haystack_data]
  obtain ⟨a, b, hab⟩ := h
  exact ⟨a, b ++ ' ' ::
        ((lower (stripHtml it.explanation)).data ++ ' ' ::
        ((lower (stripHtml it.usecase)).data ++ ' ' ::
        ((lower (stripHtml it.summary)).data ++ ' ' ::
        ((lower (it.exampleCode.getD "")).data ++ ' ' ::
        (lower (it.output.getD "")).data)))), by simp [searchQuery, ← hab]⟩

/-- Witness for C3: the question `Java 8 Features` matches the terms `java` and
`FEATURES`. -/
theorem searchFilter_of_question_witness :
    IsSubstring (asciiLower (trim "java")) (asciiLower "Java 8 Features")
    ∧ searchFilter asciiLower "java" { question := some "Java 8 Features" } = true
    ∧ IsSubstring (asciiLower (trim "FEATURES")) (asciiLower "Java 8 Features")
    ∧ searchFilter asciiLower "FEATURES" { question := some "Java 8 Features" } = true :=
  ⟨⟨[], " 8 features".data, by decide⟩,
    searchFilter_of_question asciiLower "java" { question := some "Java 8 Features" }
      ⟨[], " 8 features".data, by decide⟩,
    ⟨"java 8 ".data, [], by decide⟩,
    searchFilter_of_question asciiLower "FEATURES" { question := some "Java 8 Features" }
      ⟨"java 8 ".data, [], by decide⟩⟩

/-! ## C5: total count and total pages -/

/-- C5: for every collection, category filter, search term, page index and
positive page size, `totalCount` is the length of the filtered collection and
`totalPages = max(1, ceil(totalCount / pageSize))`; hence `totalPages ≥ 1`,
`totalPages = 1` when the filtered collection is empty, and for
`totalCount > 0`, `(totalPages-1)*pageSize < totalCount ≤ totalPages*pageSize`. -/
theorem pipeline_totalPages (lower : String → String) (items : List Record)
    (selectedTypeFilter : Option String) (searchTerm : String) (currentPage : Int)
    (pageSize : Nat) (hsize : 0 < pageSize) :
    (pipeline lower items selectedTypeFilter searchTerm currentPage pageSize).total
        = (filtered lower items selectedTypeFilter searchTerm).length
    ∧ (pipeline lower items selectedTypeFilter searchTerm currentPage pageSize).totalPages
        = max 1 ⌈((filtered lower items selectedTypeFilter searchTerm).length : ℚ)
            / (pageSize : ℚ)⌉₊
    ∧ 1 ≤ (pipeline lower items selectedTypeFilter searchTerm currentPage pageSize).totalPages
    ∧ (filtered lower items selectedTypeFilter searchTerm = [] →
        (pipeline lower items selectedTypeFilter searchTerm currentPage pageSize).totalPages = 1)
    ∧ (0 < (pipeline lower items selectedTypeFilter searchTerm currentPage pageSize).total →
        ((pipeline lower items selectedTypeFilter searchTerm currentPage pageSize).totalPages - 1)
            * pageSize
          < (pipeline lower items selectedTypeFilter searchTerm currentPage pageSize).total
        ∧ (pipeline lower items selectedTypeFilter searchTerm currentPage pageSize).total
          ≤ (pipeline lower items selectedTypeFilter searchTerm currentPage pageSize).totalPages
            * pageSize) := by
  have ht : (pipeline lower items selectedTypeFilter searchTerm currentPage pageSize).total
      = (filtered lower items selectedTypeFilter searchTerm).length := rfl
  have hp : (pipeline lower items selectedTypeFilter searchTerm currentPage pageSize).totalPages
      = max 1 (ceilDiv (filtered lower items selectedTypeFilter searchTerm).length pageSize) :=
    rfl
  rw [ht, hp]
  refine ⟨rfl, ?_, Nat.le_max_left _ _, ?_, ?_⟩
  · rw [ceilDiv_eq_ceil _ _ hsize]
  · intro hnil
    rw [hnil]
    have h0 : ceilDiv 0 pageSize = 0 := by
      unfold ceilDiv
      exact Nat.div_eq_of_lt (by omega)
    simp [h0]
  · intro hpos
    have h1 := ceilDiv_pos _ pageSize hsize hpos
    rw [Nat.max_eq_right h1]
    exact ⟨ceilDiv_pred_mul_lt _ _ hsize hpos, le_ceilDiv_mul _ _ hsize⟩

/-- Witness for C5: twelve records with page size 5 give three pages. -/
theorem pipeline_totalPages_witness :
    (pipeline asciiLower sampleRecords none "" 1 5).total = 12
    ∧ (pipeline asciiLower sampleRecords none "" 1 5).totalPages = 3
    ∧ (pipeline asciiLower sampleRecords none "" 1 5).totalPages
        = max 1 ⌈((filtered asciiLower sampleRecords none "").length : ℚ) / ((5 : Nat) : ℚ)⌉₊ :=
  ⟨by decide, by decide,
    (pipeline_totalPages asciiLower sampleRecords none "" 1 5 (by decide)).2.1⟩

/-! ## C4: the page index and the reset effect -/

theorem fetchCounts_cases (resp : Fetched (JsonBody (Option CountEntry))) (s : State) :
    (fetchCounts resp s).state = s
    ∨ ∃ m, (fetchCounts resp s).state = { s with typeCounts := m } := by
  rcases resp with m | ⟨status, body⟩
  · left; rfl
  · by_cases hok : isOk status = true
    · cases body with
      | unparsable => left; simp [fetchCounts, fetchCountsTry, hok]
      | notArray => right; exact ⟨[], by simp [fetchCounts, fetchCountsTry, hok]⟩
      | array xs =>
        right
        exact ⟨xs.foldl addCount [], by simp [fetchCounts, fetchCountsTry, hok]⟩
    · left; simp [fetchCounts, fetchCountsTry, hok]

theorem mem_pageButtons (currentPage : Int) (totalPages : Nat) (p : Int)
    (h : p ∈ pageButtons currentPage totalPages) : 1 ≤ p ∧ p ≤ (totalPages : Int) := by
  simp only [pageButtons, List.mem_map, List.mem_range] at h
  obtain ⟨i, hi, hp⟩ := h
  subst hp
  simp only [max_def] at hi ⊢
  split_ifs at hi ⊢ <;> omega

theorem view_totalPages_congr (lower : String → String) {s t : State}
    (h : SameDeps s t) : (view lower t).totalPages = (view lower s).totalPages := by
  obtain ⟨h1, h2, h3, h4⟩ := h
  show totalPagesOf (filtered lower t.items t.selectedTypeFilter t.searchTerm).length t.pageSize
    = totalPagesOf (filtered lower s.items s.selectedTypeFilter s.searchTerm).length s.pageSize
  rw [h1, h2, h3, h4]

theorem one_le_view_totalPages (lower : String → String) (s : State) :
    1 ≤ (view lower s).totalPages :=
  Nat.le_max_left _ _

theorem prevPage_spec (lower : String → String) (s : State) :
    SameDeps s (prevPage s) ∧ (PageInRange lower s → PageInRange lower (prevPage s)) := by
  unfold prevPage
  split_ifs with h
  · exact ⟨⟨rfl, rfl, rfl, rfl⟩, fun hp => hp⟩
  · refine ⟨⟨rfl, rfl, rfl, rfl⟩, fun hp => ?_⟩
    have htp : (view lower { s with currentPage := max 1 (s.currentPage - 1) }).totalPages
        = (view lower s).totalPages := rfl
    unfold PageInRange at *
    rw [htp]
    simp only
    omega

theorem nextPage_spec (lower : String → String) (s : State) :
    SameDeps s (nextPage lower s)
      ∧ (PageInRange lower s → PageInRange lower (nextPage lower s)) := by
  unfold nextPage
  simp only
  split_ifs with h
  · exact ⟨⟨rfl, rfl, rfl, rfl⟩, fun hp => hp⟩
  · refine ⟨⟨rfl, rfl, rfl, rfl⟩, fun hp => ?_⟩
    have htp : (view lower { s with
          currentPage := min ((view lower s).totalPages : Int) (s.currentPage + 1) }).totalPages
        = (view lower s).totalPages := rfl
    unfold PageInRange at *
    rw [htp]
    simp only
    omega

theorem gotoPage_spec (lower : String → String) (p : Int) (s : State) :
    SameDeps s (gotoPage lower p s)
      ∧ (PageInRange lower s → PageInRange lower (gotoPage lower p s)) := by
  unfold gotoPage
  split_ifs with h
  · refine ⟨⟨rfl, rfl, rfl, rfl⟩, fun _ => ?_⟩
    have htp : (view lower { s with currentPage := p }).totalPages
        = (view lower s).totalPages := rfl
    unfold PageInRange
    rw [htp]
    exact mem_pageButtons _ _ _ h
  · exact ⟨⟨rfl, rfl, rfl, rfl⟩, fun hp => hp⟩

theorem fetchCounts_list_fields (resp : Fetched (JsonBody (Option CountEntry)))
    (s : State) :
    (fetchCounts resp s).state.items = s.items
    ∧ (fetchCounts resp s).state.selectedTypeFilter = s.selectedTypeFilter
    ∧ (fetchCounts resp s).state.searchTerm = s.searchTerm
    ∧ (fetchCounts resp s).state.pageSize = s.pageSize
    ∧ (fetchCounts resp s).state.currentPage = s.currentPage := by
  rcases fetchCounts_cases resp s with h | ⟨m, h⟩ <;> rw [h] <;> exact ⟨rfl, rfl, rfl, rfl, rfl⟩

theorem applyCommit_spec (lower : String → String) (s : State) (c : Commit) :
    ((applyCommit lower s c).2 = false → (applyCommit lower s c).1.items = s.items)
    ∧ (0 < s.pageSize → 0 < (applyCommit lower s c).1.pageSize)
    ∧ ((applyCommit lower s c).1.currentPage = s.currentPage
        ∨ (SameDeps s (applyCommit lower s c).1
            ∧ (PageInRange lower s → PageInRange lower (applyCommit lower s c).1))) := by
  cases c with
  | listStarted => exact ⟨fun _ => rfl, fun h => h, Or.inl rfl⟩
  | listAnswered resp =>
    cases h : storedItems resp with
    | none => simp [applyCommit, h]
    | some xs => simp [applyCommit, h]
  | itemsStored resp =>
    cases h : storedItems resp with
    | none => simp [applyCommit, h]
    | some xs => simp [applyCommit, h]
  | loadingCleared => exact ⟨fun _ => rfl, fun h => h, Or.inl rfl⟩
  | countsAnswered resp =>
    obtain ⟨h1, _, _, h4, h5⟩ := fetchCounts_list_fields resp s
    exact ⟨fun _ => h1, fun h => by rw [show (applyCommit lower s
      (Commit.countsAnswered resp)).1.pageSize = s.pageSize from h4]; exact h, Or.inl h5⟩
  | cardClicked t => exact ⟨fun _ => rfl, fun h => h, Or.inl rfl⟩
  | filterCleared => exact ⟨fun _ => rfl, fun h => h, Or.inl rfl⟩
  | searchChanged value => exact ⟨fun _ => rfl, fun h => h, Or.inl rfl⟩
  | pageSizeChanged opt =>
    refine ⟨fun _ => rfl, fun _ => ?_, Or.inl rfl⟩
    show 0 < opt.toNat
    cases opt <;> decide
  | prevClicked =>
    have h := prevPage_spec lower s
    exact ⟨fun _ => h.1.1, fun hp => by
      rw [show (applyCommit lower s Commit.prevClicked).1.pageSize = s.pageSize
        from h.1.2.2.2]; exact hp, Or.inr h⟩
  | nextClicked =>
    have h := nextPage_spec lower s
    exact ⟨fun _ => h.1.1, fun hp => by
      rw [show (applyCommit lower s Commit.nextClicked).1.pageSize = s.pageSize
        from h.1.2.2.2]; exact hp, Or.inr h⟩
  | pageClicked p =>
    have h := gotoPage_spec lower p s
    exact ⟨fun _ => h.1.1, fun hp => by
      rw [show (applyCommit lower s (Commit.pageClicked p)).1.pageSize = s.pageSize
        from h.1.2.2.2]; exact hp, Or.inr h⟩
  | logoutClicked => exact ⟨fun _ => rfl, fun h => h, Or.inl rfl⟩
  | logoutConfirmed => exact ⟨fun h => absurd h (by simp [applyCommit]), fun h => h, Or.inl rfl⟩
  | fieldChanged id value => exact ⟨fun _ => rfl, fun h => h, Or.inl rfl⟩
  | quillChanged field value => exact ⟨fun _ => rfl, fun h => h, Or.inl rfl⟩
  | saveStarted =>
    by_cases hq : trim s.form.question = ""
    · simp [applyCommit, hq]
    · simp [applyCommit, hq]
  | saveFinished => exact ⟨fun _ => rfl, fun h => h, Or.inl rfl⟩
  | formReset => exact ⟨fun _ => rfl, fun h => h, Or.inl rfl⟩
  | savedShown => exact ⟨fun _ => rfl, fun h => h, Or.inl rfl⟩
  | savingCleared => exact ⟨fun _ => rfl, fun h => h, Or.inl rfl⟩
  | tabSelected tab =>
    cases tab
    · exact ⟨fun _ => rfl, fun h => h, Or.inl rfl⟩
    · exact ⟨fun _ => rfl, fun h => h, Or.inl rfl⟩
  | savedModalClosed => exact ⟨fun _ => rfl, fun h => h, Or.inl rfl⟩

theorem depsDiffer_eq_false (before after : State) (itemsStored : Bool)
    (h : depsDiffer before after itemsStored = false) :
    itemsStored = false ∧ after.selectedTypeFilter = before.selectedTypeFilter
      ∧ after.pageSize = before.pageSize ∧ after.searchTerm = before.searchTerm := by
  unfold depsDiffer at h
  simp only [Bool.or_eq_false_iff, decide_eq_false_iff_not, not_not, ne_eq] at h
  exact ⟨h.1.1.1, h.1.1.2, h.1.2, h.2⟩

theorem commitRender_pageInRange (lower : String → String) (r : Render) (c : Commit)
    (hr : PageInRange lower r.state)
    (hc : (commitRender lower r c).resetPending = false) :
    PageInRange lower (commitRender lower r c).state := by
  obtain ⟨hitems, _, hpage⟩ := applyCommit_spec lower r.state c
  obtain ⟨hb, hf, hp, hs⟩ := depsDiffer_eq_false _ _ _ hc
  show PageInRange lower (applyCommit lower r.state c).1
  rcases hpage with hcp | ⟨_, hkeep⟩
  · have hd : SameDeps r.state (applyCommit lower r.state c).1 := ⟨hitems hb, hf, hs, hp⟩
    have htp := view_totalPages_congr lower hd
    unfold PageInRange at *
    rw [htp, hcp]
    exact hr
  · exact hkeep hr

theorem runEffect_pageInRange (lower : String → String) (r : Render) :
    PageInRange lower (runEffect r).state := by
  have h := one_le_view_totalPages lower (runEffect r).state
  show (1 : Int) ≤ 1 ∧ (1 : Int) ≤ ((view lower (runEffect r).state).totalPages : Int)
  exact ⟨le_refl _, by exact_mod_cast h⟩

theorem renderReachable_inv (lower : String → String) (r : Render)
    (h : RenderReachable lower r) :
    0 < r.state.pageSize ∧ (r.resetPending = false → PageInRange lower r.state) := by
  induction h with
  | mount => exact ⟨by decide, fun hp => absurd hp (by decide)⟩
  | commit r c _ hs ih =>
    exact ⟨(applyCommit_spec lower r.state c).2.1 ih.1,
      fun hc => commitRender_pageInRange lower r c (ih.2 hs) hc⟩
  | effect r _ _ ih => exact ⟨ih.1, fun _ => runEffect_pageInRange lower r⟩

theorem commitRender_pending_of_depsChanged (lower : String → String) (r : Render)
    (c : Commit) (hd : DepsChanged r.state (commitRender lower r c).state) :
    (commitRender lower r c).resetPending = true := by
  by_contra hne
  have hc : (commitRender lower r c).resetPending = false := by simpa using hne
  obtain ⟨hb, hf, hp, hs⟩ := depsDiffer_eq_false _ _ _ hc
  have hitems := (applyCommit_spec lower r.state c).1 hb
  rcases hd with hd | hd | hd | hd
  · exact hd hf
  · exact hd hs
  · exact hd hp
  · exact hd hitems

/-! ### The handlers run to completion are paths of the render-level model -/

theorem settle_commit_of_same (lower : String → String) (t : State) (c : Commit)
    (hb : (applyCommit lower t c).2 = false)
    (hf : (applyCommit lower t c).1.selectedTypeFilter = t.selectedTypeFilter)
    (hp : (applyCommit lower t c).1.pageSize = t.pageSize)
    (hs : (applyCommit lower t c).1.searchTerm = t.searchTerm) :
    settle (commitRender lower { state := t, resetPending := false } c)
      = (applyCommit lower t c).1 := by
  have hd : (commitRender lower { state := t, resetPending := false } c).resetPending
      = false := by
    show depsDiffer t (applyCommit lower t c).1 (applyCommit lower t c).2 = false
    simp [depsDiffer, hb, hf, hp, hs]
  unfold settle
  rw [hd]
  rfl

theorem fetchList_state (resp : Fetched (JsonBody Record)) (s : State) :
    (fetchList resp s).state
      = match storedItems resp with
        | some xs => { s with items := xs, currentPage := 1, loadingItems := false }
        | none => { s with loadingItems := false } := by
  rcases resp with m | ⟨status, body⟩
  · rfl
  · by_cases hok : isOk status = true
    · cases body <;> simp [fetchList, fetchListTry, storedItems, hok, setItems]
    · simp [fetchList, fetchListTry, storedItems, hok]

theorem settle_listAnswered (lower : String → String) (resp : Fetched (JsonBody Record))
    (s : State) :
    settleAfter lower s [Commit.listStarted, Commit.listAnswered resp]
      = (fetchList resp s).state := by
  rw [fetchList_state]
  cases h : storedItems resp with
  | none =>
    simp [settleAfter, settle, commitRender, applyCommit, depsDiffer, h]
  | some xs =>
    simp [settleAfter, settle, commitRender, applyCommit, depsDiffer, runEffect, h]

theorem settle_logoutConfirmed (lower : String → String) (s : State) :
    settleAfter lower s [Commit.logoutConfirmed] = (confirmLogout s).state := by
  by_cases h : s.selectedTypeFilter = none
  · simp [settleAfter, settle, commitRender, applyCommit, depsDiffer, runEffect,
      confirmLogout, setSelectedTypeFilter, setItems, h]
  · simp [settleAfter, settle, commitRender, applyCommit, depsDiffer, runEffect,
      confirmLogout, setSelectedTypeFilter, setItems, h]

theorem sampleRender_reachable : RenderReachable asciiLower sampleRender :=
  RenderReachable.commit _ _
    (RenderReachable.effect _
      (RenderReachable.commit _ _
        (RenderReachable.effect _ RenderReachable.mount (by decide)) (by decide))
      (by decide))
    (by decide)

theorem lastPageRender_reachable : RenderReachable asciiLower lastPageRender :=
  RenderReachable.commit _ _ sampleRender_reachable (by decide)

/-- C4 (as stated, refuted): the page index is reset by an effect, one render
after the change. On page 3 of 3 of twelve records, typing `zzz` into the
search box commits a render in which the search term has changed, nothing
matches, `totalPages` is 1 and the page index is still 3: it is not in
`[1, totalPages]` and it is not 1. -/
theorem staleRender_counterexample :
    RenderReachable asciiLower staleRender
    ∧ DepsChanged lastPageRender.state staleRender.state
    ∧ staleRender.state.currentPage = 3
    ∧ (view asciiLower staleRender.state).totalPages = 1
    ∧ ¬ (1 ≤ staleRender.state.currentPage
        ∧ staleRender.state.currentPage ≤ ((view asciiLower staleRender.state).totalPages : Int))
    ∧ staleRender.state.currentPage ≠ 1 :=
  ⟨RenderReachable.commit _ _ lastPageRender_reachable (by decide),
    Or.inr (Or.inl (by decide)), by decide, by decide, by decide, by decide⟩

/-- C4 (amended): in every render the component commits (after fetches,
category filter set or cleared, search term changed, page size changed to 5,
10 or 20, Prev, Next, a click on a rendered page-number button, logout, form
edits and submit) the page size is positive and, when no reset effect is
pending, the page index lies in `[1, totalPages]`, with `totalPages` computed
from the current filtered collection and page size. When the reset effect is
pending, the render it commits has page index 1, which is in range. Every
batch of updates after which the selected category, the search term, the page
size or the collection differs leaves the reset effect pending, and the page
index equals 1 once that effect has run; the render committed before the
effect may still show the old page index. -/
theorem renderReachable_pageInRange (lower : String → String) (r : Render)
    (h : RenderReachable lower r) :
    0 < r.state.pageSize
    ∧ (view lower r.state).totalPages
        = totalPagesOf
            (filtered lower r.state.items r.state.selectedTypeFilter r.state.searchTerm).length
            r.state.pageSize
    ∧ (r.resetPending = false →
        1 ≤ r.state.currentPage
        ∧ r.state.currentPage ≤ ((view lower r.state).totalPages : Int))
    ∧ (r.resetPending = true →
        (runEffect r).resetPending = false
        ∧ (runEffect r).state.currentPage = 1
        ∧ (runEffect r).state.currentPage
            ≤ ((view lower (runEffect r).state).totalPages : Int))
    ∧ ∀ c : Commit, DepsChanged r.state (commitRender lower r c).state →
        (commitRender lower r c).resetPending = true
        ∧ (settle (commitRender lower r c)).currentPage = 1 := by
  obtain ⟨hsize, hrange⟩ := renderReachable_inv lower r h
  refine ⟨hsize, rfl, hrange, fun _ => ⟨rfl, rfl, (runEffect_pageInRange lower r).2⟩, ?_⟩
  intro c hd
  have hp := commitRender_pending_of_depsChanged lower r c hd
  refine ⟨hp, ?_⟩
  unfold settle
  rw [if_pos hp]
  rfl

/-- Witness for C4: after the list fetch returns twelve records, the reset
effect runs and Next is clicked, the component shows page 2 of 3 with no
effect pending; the stale render of the search for `zzz` settles on page 1. -/
theorem renderReachable_pageInRange_witness :
    RenderReachable asciiLower sampleRender
    ∧ sampleRender.resetPending = false
    ∧ sampleRender.state.currentPage = 2
    ∧ (view asciiLower sampleRender.state).totalPages = 3
    ∧ (1 ≤ sampleRender.state.currentPage
        ∧ sampleRender.state.currentPage
            ≤ ((view asciiLower sampleRender.state).totalPages : Int))
    ∧ (settle staleRender).currentPage = 1 :=
  ⟨sampleRender_reachable, by decide, by decide, by decide,
    (renderReachable_pageInRange asciiLower sampleRender sampleRender_reachable).2.2.1
      (by decide),
    by decide⟩

/-! ## C6: editing the type of the draft -/

theorem catalog_firstLanguage :
    ∀ t ∈ typeOptions, (typeLanguageMap t).isSome = true
      ∧ ((typeLanguageMap t).getD []).head? = some (firstLanguage t)
      ∧ firstLanguage t ∈ (typeLanguageMap t).getD [] := by
  decide

/-- C6: for every form state and every type of the category catalog, the
type edit yields a form whose type is the new type, whose language is the
first entry of that type's sub-language list (so the pair of type and language
is in the catalog), and whose other fields are unchanged. -/
theorem handleChange_type (f : Form) (t : String) (ht : t ∈ typeOptions) :
    (handleChange f FieldId.type t).type = t
    ∧ (∃ langs, typeLanguageMap t = some langs
        ∧ langs.head? = some (handleChange f FieldId.type t).language
        ∧ (handleChange f FieldId.type t).language ∈ langs)
    ∧ (handleChange f FieldId.type t).question = f.question
    ∧ (handleChange f FieldId.type t).explanation = f.explanation
    ∧ (handleChange f FieldId.type t).usecase = f.usecase
    ∧ (handleChange f FieldId.type t).exampleCode = f.exampleCode
    ∧ (handleChange f FieldId.type t).output = f.output
    ∧ (handleChange f FieldId.type t).summary = f.summary := by
  refine ⟨rfl, ?_, rfl, rfl, rfl, rfl, rfl, rfl⟩
  obtain ⟨hsome, hhead, hmem⟩ := catalog_firstLanguage t ht
  obtain ⟨langs, hl⟩ := Option.isSome_iff_exists.mp hsome
  rw [hl] at hhead hmem
  exact ⟨langs, hl, hhead, hmem⟩

/-- Witness for C6: the draft with type Front-End and language HTML, edited to
type Back-End, has language CoreJava. -/
theorem handleChange_type_witness :
    "Back-End" ∈ typeOptions
    ∧ initialForm.type = "Front-End" ∧ initialForm.language = "HTML"
    ∧ (handleChange initialForm FieldId.type "Back-End").type = "Back-End"
    ∧ (handleChange initialForm FieldId.type "Back-End").language = "CoreJava" :=
  ⟨by decide, by decide, by decide,
    (handleChange_type initialForm "Back-End" (by decide)).1, by decide⟩

/-! ## C7: submit with a blank question -/

theorem trim_of_isBlank (s : String) (h : IsBlank s) : trim s = "" := by
  unfold trim
  have h1 : s.data.dropWhile isWhiteSpace = [] := List.dropWhile_eq_nil_iff.mpr h
  rw [h1]
  rfl

theorem trim_ne_empty (s : String) (h : ¬ IsBlank s) : trim s ≠ "" := by
  unfold IsBlank at h
  push_neg at h
  obtain ⟨c, hc, hws⟩ := h
  have h1 : s.data.dropWhile isWhiteSpace ≠ [] := by
    intro h0
    exact hws (List.dropWhile_eq_nil_iff.mp h0 c hc)
  have h2 : ∃ d ∈ s.data.dropWhile isWhiteSpace, ¬ isWhiteSpace d = true := by
    cases hd : s.data.dropWhile isWhiteSpace with
    | nil => exact absurd hd h1
    | cons d tl =>
      refine ⟨d, List.mem_cons_self _ _, ?_⟩
      have := List.head_dropWhile_not isWhiteSpace s.data h1
      simp only [hd, List.head_cons] at this
      simp [this]
  obtain ⟨d, hd, hdws⟩ := h2
  have h3 : (s.data.dropWhile isWhiteSpace).reverse.dropWhile isWhiteSpace ≠ [] := by
    intro h0
    exact hdws (List.dropWhile_eq_nil_iff.mp h0 d (List.mem_reverse.mpr hd))
  intro h4
  unfold trim at h4
  have h5 := congrArg String.data h4
  simp only [List.reverse_eq_nil_iff] at h5
  exact h3 h5

/-- C7: for every state whose form has a blank question (empty, or white space
only) and every store, submit stops at the validation message: the only effect
is the alert, no request is issued (no create, no list, no counts), nothing is
thrown, and the state (form, collection, counts and the not-saving status
included) is unchanged. -/
theorem addQA_blank (net : Network) (s : State) (hblank : IsBlank s.form.question) :
    (addQA net s).effects = [Effect.alert "Please enter a question"]
    ∧ requestsOf (addQA net s).effects = []
    ∧ (addQA net s).thrown = none
    ∧ (addQA net s).state = s
    ∧ (addQA net s).state.form = s.form
    ∧ (addQA net s).state.items = s.items
    ∧ (addQA net s).state.typeCounts = s.typeCounts
    ∧ (addQA net s).state.saving = s.saving := by
  have h : addQA net s
      = { state := s, effects := [Effect.alert "Please enter a question"], thrown := none } := by
    unfold addQA
    rw [if_pos (trim_of_isBlank _ hblank)]
  rw [h]
  exact ⟨rfl, rfl, rfl, rfl, rfl, rfl, rfl, rfl⟩

/-- Witness for C7: a question of two spaces, a tab and a space, against a store
that would accept the create call. -/
theorem addQA_blank_witness :
    IsBlank blankQuestionState.form.question
    ∧ (addQA acceptingNetwork blankQuestionState).state = blankQuestionState
    ∧ requestsOf (addQA acceptingNetwork blankQuestionState).effects = [] :=
  ⟨by decide,
    (addQA_blank acceptingNetwork blankQuestionState (by decide)).2.2.2.1,
    (addQA_blank acceptingNetwork blankQuestionState (by decide)).2.1⟩

/-! ## C8: logout -/

/-- C8 (as stated, refuted): logout does not reset the search term, the page
size or the category counts. From a state with search term `java`, page size
10 and one count, they are the same after `confirmLogout`, and differ from
their initial values. -/
theorem confirmLogout_keeps_counterexample :
    (confirmLogout busyState).state.searchTerm = "java"
    ∧ (confirmLogout busyState).state.searchTerm ≠ initialState.searchTerm
    ∧ (confirmLogout busyState).state.pageSize = 10
    ∧ (confirmLogout busyState).state.pageSize ≠ initialState.pageSize
    ∧ (confirmLogout busyState).state.typeCounts = [("Back-End", 1)]
    ∧ (confirmLogout busyState).state.typeCounts ≠ initialState.typeCounts := by
  decide

/-- C8 (amended): for every state, `confirmLogout` yields a state in which the
collection is empty, the form is the all-default draft, the category filter is
unset, the view is the initial (dashboard) view, the logout confirmation is
closed and the page index equals its initial value 1; the search term, the
page size and the category counts keep the values they had; no request is
issued and nothing is thrown. -/
theorem confirmLogout_resets (s : State) :
    (confirmLogout s).state.items = []
    ∧ (confirmLogout s).state.form = initialForm
    ∧ (confirmLogout s).state.selectedTypeFilter = none
    ∧ (confirmLogout s).state.activeTab = initialState.activeTab
    ∧ (confirmLogout s).state.showLogoutConfirm = false
    ∧ (confirmLogout s).state.currentPage = initialState.currentPage
    ∧ (confirmLogout s).state.searchTerm = s.searchTerm
    ∧ (confirmLogout s).state.pageSize = s.pageSize
    ∧ (confirmLogout s).state.typeCounts = s.typeCounts
    ∧ (confirmLogout s).effects = []
    ∧ (confirmLogout s).thrown = none := by
  by_cases h : s.selectedTypeFilter = none
  · have hs : (confirmLogout s).state
        = { s with items := [], currentPage := 1, form := initialForm,
                   activeTab := Tab.dashboard, showLogoutConfirm := false } := by
      simp [confirmLogout, setSelectedTypeFilter, setItems, h]
    rw [hs]
    exact ⟨rfl, rfl, h, rfl, rfl, rfl, rfl, rfl, rfl, rfl, rfl⟩
  · have hs : (confirmLogout s).state
        = { s with items := [], currentPage := 1, form := initialForm,
                   selectedTypeFilter := none,
                   activeTab := Tab.dashboard, showLogoutConfirm := false } := by
      simp [confirmLogout, setSelectedTypeFilter, setItems, h]
    rw [hs]
    exact ⟨rfl, rfl, rfl, rfl, rfl, rfl, rfl, rfl, rfl, rfl, rfl⟩

/-! ## C9: submit with a question -/

theorem isOk_false_of_createFails (status : Nat) (h : status < 200 ∨ 299 < status) :
    isOk status = false := by
  unfold isOk
  rcases h with h | h
  · have : ¬ 200 ≤ status := by omega
    simp [this]
  · have : ¬ status ≤ 299 := by omega
    simp [this]

theorem isOk_true_of_range (status : Nat) (h : 200 ≤ status ∧ status ≤ 299) :
    isOk status = true := by
  unfold isOk
  simp [h.1, h.2]

theorem addQA_create_failed (net : Network) (s : State)
    (hne : trim s.form.question ≠ "") (m : String) (hc : net.create = Fetched.failed m) :
    addQA net s
      = { state := { s with saving := false }
          effects := [Effect.request (Request.create s.form),
            Effect.consoleError "Save failed" m,
            Effect.alert ("Failed to save: " ++ errorText m)]
          thrown := none } := by
  simp [addQA, addQATry, hne, hc]

theorem addQA_create_rejected (net : Network) (s : State)
    (hne : trim s.form.question ≠ "") (status : Nat) (text : String)
    (hc : net.create = Fetched.response status text) (hok : isOk status = false) :
    addQA net s
      = { state := { s with saving := false }
          effects := [Effect.request (Request.create s.form),
            Effect.consoleError "Save failed" (if text = "" then httpMessage status else text),
            Effect.alert ("Failed to save: "
              ++ errorText (if text = "" then httpMessage status else text))]
          thrown := none } := by
  simp [addQA, addQATry, hne, hc, hok]

theorem addQA_create_ok (net : Network) (s : State)
    (hne : trim s.form.question ≠ "") (status : Nat) (text : String)
    (hc : net.create = Fetched.response status text) (hok : isOk status = true) :
    addQA net s
      = { state :=
            { (fetchCounts net.counts
                (fetchList net.list { s with saving := true }).state).state with
              form := savedForm, showSavedModal := true, saving := false }
          effects := Effect.request (Request.create s.form) ::
            ((fetchList net.list { s with saving := true }).effects
              ++ (fetchCounts net.counts
                (fetchList net.list { s with saving := true }).state).effects)
          thrown := none } := by
  simp [addQA, addQATry, hne, hc, hok]

theorem settle_countsAnswered (lower : String → String)
    (resp : Fetched (JsonBody (Option CountEntry))) (s : State) :
    settleAfter lower s [Commit.countsAnswered resp] = (fetchCounts resp s).state := by
  obtain ⟨_, h2, h3, h4, _⟩ := fetchCounts_list_fields resp s
  exact settle_commit_of_same lower s (Commit.countsAnswered resp) rfl h2 h4 h3

theorem settle_addQA_blank (lower : String → String) (net : Network) (s : State)
    (hq : trim s.form.question = "") :
    settleAfter lower s [Commit.saveStarted] = (addQA net s).state := by
  simp [settleAfter, settle, commitRender, applyCommit, depsDiffer, addQA, hq]

theorem settle_addQA_failed (lower : String → String) (net : Network) (s : State)
    (hne : trim s.form.question ≠ "") (m : String) (hc : net.create = Fetched.failed m) :
    settleAfter lower s [Commit.saveStarted, Commit.savingCleared]
      = (addQA net s).state := by
  rw [addQA_create_failed net s hne m hc]
  simp [settleAfter, settle, commitRender, applyCommit, depsDiffer, hne]

theorem settle_addQA_rejected (lower : String → String) (net : Network) (s : State)
    (hne : trim s.form.question ≠ "") (status : Nat) (text : String)
    (hc : net.create = Fetched.response status text) (hok : isOk status = false) :
    settleAfter lower s [Commit.saveStarted, Commit.savingCleared]
      = (addQA net s).state := by
  rw [addQA_create_rejected net s hne status text hc hok]
  simp [settleAfter, settle, commitRender, applyCommit, depsDiffer, hne]

theorem settle_addQA_ok (lower : String → String) (net : Network) (s : State)
    (hne : trim s.form.question ≠ "") (status : Nat) (text : String)
    (hc : net.create = Fetched.response status text) (hok : isOk status = true) :
    settleAfter lower s
        [Commit.saveStarted, Commit.listStarted, Commit.listAnswered net.list,
          Commit.countsAnswered net.counts, Commit.saveFinished]
      = (addQA net s).state := by
  rw [addQA_create_ok net s hne status text hc hok]
  have h1 : settleAfter lower s [Commit.saveStarted] = { s with saving := true } := by
    simp [settleAfter, settle, commitRender, applyCommit, depsDiffer, hne]
  have h2 := settle_listAnswered lower net.list { s with saving := true }
  have h3 := settle_countsAnswered lower net.counts
    (fetchList net.list { s with saving := true }).state
  have hsplit : settleAfter lower s
        [Commit.saveStarted, Commit.listStarted, Commit.listAnswered net.list,
          Commit.countsAnswered net.counts, Commit.saveFinished]
      = settleAfter lower
          (settleAfter lower
            (settleAfter lower (settleAfter lower s [Commit.saveStarted])
              [Commit.listStarted, Commit.listAnswered net.list])
            [Commit.countsAnswered net.counts])
          [Commit.saveFinished] := rfl
  rw [hsplit, h1, h2, h3]
  simp [settleAfter, settle, commitRender, applyCommit, depsDiffer]

/-- C9: for every state whose form has a non-blank question and every store,
submit ends with `saving = false` and nothing thrown; if create fails (the
transport fails or the status is not 2xx) the form, the collection and the
counts are exactly as before, the only request is the create call and the
failure is shown in an alert; if create succeeds the form is the all-default
draft (type Front-End, language HTML, every text field empty), whatever the
list and counts refreshes answer. -/
theorem addQA_nonblank (net : Network) (s : State) (hq : ¬ IsBlank s.form.question) :
    (addQA net s).state.saving = false
    ∧ (addQA net s).thrown = none
    ∧ (CreateFails net.create →
        (addQA net s).state.form = s.form
        ∧ (addQA net s).state.items = s.items
        ∧ (addQA net s).state.typeCounts = s.typeCounts
        ∧ requestsOf (addQA net s).effects = [Request.create s.form]
        ∧ ∃ message, Effect.alert ("Failed to save: " ++ message) ∈ (addQA net s).effects)
    ∧ (CreateSucceeds net.create →
        (addQA net s).state.form
          = { type := "Front-End", language := "HTML", question := "", explanation := "",
              usecase := "", exampleCode := "", output := "", summary := "" }
        ∧ (addQA net s).state.form = initialForm
        ∧ (addQA net s).state.showSavedModal = true) := by
  have hne := trim_ne_empty _ hq
  unfold CreateFails CreateSucceeds
  rcases hc : net.create with m | ⟨status, text⟩
  · rw [addQA_create_failed net s hne m hc]
    exact ⟨rfl, rfl, fun _ => ⟨rfl, rfl, rfl, rfl, errorText m, by simp⟩,
      fun h => absurd h id⟩
  · by_cases hok : isOk status = true
    · rw [addQA_create_ok net s hne status text hc hok]
      refine ⟨rfl, rfl, fun h => ?_, fun _ => ⟨?_, ?_, rfl⟩⟩
      · rw [isOk_false_of_createFails status h] at hok
        exact absurd hok (by simp)
      · show savedForm = _
        decide
      · show savedForm = initialForm
        decide
    · have hok2 : isOk status = false := by simpa using hok
      rw [addQA_create_rejected net s hne status text hc hok2]
      exact ⟨rfl, rfl,
        fun _ => ⟨rfl, rfl, rfl, rfl,
          errorText (if text = "" then httpMessage status else text), by simp⟩,
        fun h => absurd (isOk_true_of_range status h) hok⟩

/-- Witness for C9: a filled-in draft against a store that answers the create
call with status 500: the state is as before, with `saving = false`. -/
theorem addQA_nonblank_witness :
    ¬ IsBlank busyState.form.question
    ∧ CreateFails failingNetwork.create
    ∧ (addQA failingNetwork busyState).state.saving = false
    ∧ (addQA failingNetwork busyState).state.form = busyState.form
    ∧ CreateSucceeds acceptingNetwork.create
    ∧ (addQA acceptingNetwork busyState).state.form = initialForm :=
  ⟨by decide, Or.inr (by decide),
    (addQA_nonblank failingNetwork busyState (by decide)).1,
    ((addQA_nonblank failingNetwork busyState (by decide)).2.2.1 (Or.inr (by decide))).1,
    ⟨by decide, by decide⟩, by decide⟩

/-! ## C10: a failed list fetch -/

/-- C10: for every prior state, when the list call fails (the transport fails or
the status is not 2xx) `fetchList` leaves the items collection equal to its
prior value, ends with the loading flag false, throws nothing to the caller,
and changes nothing else of the state. -/
theorem fetchList_failure (resp : Fetched (JsonBody Record)) (s : State)
    (hfail : ListFails resp) :
    (fetchList resp s).state.items = s.items
    ∧ (fetchList resp s).state.loadingItems = false
    ∧ (fetchList resp s).thrown = none
    ∧ (fetchList resp s).state = { s with loadingItems := false } := by
  unfold ListFails at hfail
  rcases resp with m | ⟨status, body⟩
  · exact ⟨rfl, rfl, rfl, rfl⟩
  · have hok := isOk_false_of_createFails status hfail
    simp [fetchList, fetchListTry, hok]

/-- Witness for C10: a network error and a status 503 while one record is
loaded. -/
theorem fetchList_failure_witness :
    ListFails (Fetched.failed "Failed to fetch")
    ∧ (fetchList (Fetched.failed "Failed to fetch") busyState).state.items = busyState.items
    ∧ ListFails (Fetched.response 503 JsonBody.unparsable)
    ∧ (fetchList (Fetched.response 503 JsonBody.unparsable) busyState).state.items
        = busyState.items :=
  ⟨trivial,
    (fetchList_failure (Fetched.failed "Failed to fetch") busyState trivial).1,
    Or.inr (by decide),
    (fetchList_failure (Fetched.response 503 JsonBody.unparsable) busyState
      (Or.inr (by decide))).1⟩

/-! ## C11: the category filter -/

/-- C11: the category filter is idempotent. For every collection and every
selected category, applying the filter twice with the same category gives the
same list as applying it once; the filter is the first stage of `filtered`;
for an unset category (`null` or empty) every record passes; for a set
category the list consists of exactly the records whose type equals it; and
the result keeps the original fetch order (it is a sublist of the
collection). -/
theorem categoryFilter_idempotent (items : List Record)
    (selectedTypeFilter : Option String) :
    categoryFilter selectedTypeFilter (categoryFilter selectedTypeFilter items)
        = categoryFilter selectedTypeFilter items
    ∧ (∀ (lower : String → String) (searchTerm : String),
        filtered lower items selectedTypeFilter searchTerm
          = (categoryFilter selectedTypeFilter items).filter (searchFilter lower searchTerm))
    ∧ (IsUnset selectedTypeFilter → categoryFilter selectedTypeFilter items = items)
    ∧ (∀ c : String, selectedTypeFilter = some c → c ≠ "" →
        categoryFilter selectedTypeFilter items
            = items.filter (fun it => decide (it.type = some c))
        ∧ ∀ it : Record, it ∈ categoryFilter selectedTypeFilter items
            ↔ it ∈ items ∧ it.type = some c)
    ∧ List.Sublist (categoryFilter selectedTypeFilter items) items := by
  refine ⟨?_, fun _ _ => rfl, ?_, ?_, ?_⟩
  · unfold categoryFilter
    rw [List.filter_filter]
    apply List.filter_congr
    intro it _
    simp
  · intro hunset
    unfold categoryFilter
    apply List.filter_eq_self.mpr
    intro it _
    rcases hunset with h | h <;> rw [h] <;> rfl
  · intro c hc hne
    have hpred : filterByType selectedTypeFilter = fun it => decide (it.type = some c) := by
      funext it
      rw [hc]
      unfold filterByType
      simp only [if_neg hne]
    unfold categoryFilter
    rw [hpred]
    refine ⟨rfl, fun it => ?_⟩
    simp [List.mem_filter]
  · unfold categoryFilter
    exact List.filter_sublist items

/-- Witness for C11: five records filtered by `Back-End` give records 1 and 4,
once or twice; with no category they are all kept. -/
theorem categoryFilter_idempotent_witness :
    categoryFilter (some "Back-End") mixedRecords
        = [{ id := some 1, type := some "Back-End" }, { id := some 4, type := some "Back-End" }]
    ∧ categoryFilter (some "Back-End") (categoryFilter (some "Back-End") mixedRecords)
        = categoryFilter (some "Back-End") mixedRecords
    ∧ categoryFilter none mixedRecords = mixedRecords :=
  ⟨by decide, (categoryFilter_idempotent mixedRecords (some "Back-End")).1,
    (categoryFilter_idempotent mixedRecords none).2.2.1 (Or.inl rfl)⟩

end App
